import Mathlib

/-!
Verification of the mindmate journaling backend (Python/FastAPI) against its
natural-language specification.  The Python source is shallowly embedded:

* Python `str` values are Lean `String`s; `str.lower` is modelled by mapping
  `Char.toLower` over the characters, and the substring test `w in s` by an
  executable occurrence check over character lists.
* Python `float` mood scores are modelled as `Rat`.  Every score produced by
  the embedded code is a small decimal (3.0, 5.0, 7.0, averages of those), so
  rational arithmetic is exact where the spec allows a 1e-6 tolerance.
* Python dicts used as records become structures; a dict key that is absent on
  some code path becomes an `Option` field (`none` = key absent).
* The external language model boundary (LangChain chain calls plus
  `json.loads` of the reply) is an oracle function returning
  `Except String α`: `.error e` models a raised exception or an unparseable
  reply with text `e`, `.ok` a successfully parsed reply.  A Python
  `try ... except` block becomes a `match` on the oracle outcome.
* The process-wide `conversation_memories` dict is an insertion-ordered
  association list threaded explicitly through the conversation functions.
-/

namespace Mindmate

/-! ## Character-level string primitives (Python `in` and `str.lower`) -/

/-- `isPfx w s` : the character list `w` is a prefix of `s`
(Python `s.startswith(w)` at the character level). -/
def isPfx : List Char → List Char → Bool
  | [], _ => true
  | _ :: _, [] => false
  | a :: as, b :: bs => a == b && isPfx as bs

/-- `occursIn w s` : the character list `w` occurs contiguously inside `s`;
this is Python's substring test `w in s`. -/
def occursIn (w : List Char) : List Char → Bool
  | [] => isPfx w []
  | c :: s => isPfx w (c :: s) || occursIn w s

/-- Characters of `s` lower-cased: Python `s.lower()` (the word lists and all
journal text in scope are ASCII, where `Char.toLower` agrees with Python). -/
def lowerChars (s : String) : List Char := s.data.map Char.toLower

/-- Python `w in content.lower()` for a (lower-case) keyword `w`. -/
def wordIn (w : String) (content : String) : Bool :=
  occursIn w.data (lowerChars content)

/-! ## Frequency counting and Python `sorted(..., reverse=True)`

Python dicts preserve insertion order, so the `theme_counts` dicts built by
`for theme in all_themes: theme_counts[theme] = theme_counts.get(theme, 0)+1`
are association lists whose keys appear in first-seen order.  Python `sorted`
with `reverse=True` is the stable descending sort; stable sorting has a unique
result, computed here by insertion sort. -/

/-- One loop iteration `counts[k] = counts.get(k, 0) + 1` on an
insertion-ordered association list. -/
def bump (l : List (String × Nat)) (k : String) : List (String × Nat) :=
  if l.any (fun p => p.1 == k) then
    l.map (fun p => if p.1 == k then (p.1, p.2 + 1) else p)
  else l ++ [(k, 1)]

/-- The whole counting loop: frequency table in first-seen key order,
as produced by `dict.items()` afterwards. -/
def countItems (ks : List String) : List (String × Nat) := ks.foldl bump []

/-- Insert one element into a descending-by-count list, before the first
element whose count is `≤` its own (so an inserted element precedes the
elements it ties with that were originally to its right). -/
def insDesc (x : String × Nat) : List (String × Nat) → List (String × Nat)
  | [] => [x]
  | y :: ys => if y.2 ≤ x.2 then x :: y :: ys else y :: insDesc x ys

/-- `sorted(items, key=lambda x: x[1], reverse=True)`: the stable descending
sort by count (insertion sort computes exactly the stable result). -/
def sortDesc : List (String × Nat) → List (String × Nat)
  | [] => []
  | x :: xs => insDesc x (sortDesc xs)

/-- A truncated frequency table as the endpoints return it: sorted descending
by count, within the cap, and, for every count value, listing the keys of that
count in a way consistent with first-seen order (its count-`k` elements are an
initial segment of the count-`k` elements of the first-seen table). -/
def TableOK (keys : List String) (cap : Nat) (table : List (String × Nat)) : Prop :=
  table.Pairwise (fun a b => b.2 ≤ a.2) ∧
  table.length ≤ cap ∧
  ∀ k, ∃ t, (countItems keys).filter (fun p => p.2 == k) =
    table.filter (fun p => p.2 == k) ++ t

/-- Python `sum` over mood scores. -/
def pySum (l : List Rat) : Rat := l.foldl (· + ·) 0

/-- Python `max` of a nonempty score list (`0` for the unreachable empty case). -/
def pyMaxR : List Rat → Rat
  | [] => 0
  | x :: xs => xs.foldl max x

/-- Python `min` of a nonempty score list. -/
def pyMinR : List Rat → Rat
  | [] => 0
  | x :: xs => xs.foldl min x

/-- Python `max(items, key=lambda x: x[1])`: first pair with maximal count
(`max` keeps the earlier element on ties, replacing only on strictly
greater). -/
def maxByCount : List (String × Nat) → Option (String × Nat)
  | [] => none
  | x :: xs => some (xs.foldl (fun b p => if b.2 < p.2 then p else b) x)

/-- `pandas.unique` / first-occurrence deduplication, keeping first-seen
order. -/
def firstSeen (ks : List String) : List String :=
  ks.foldl (fun acc k => if acc.contains k then acc else acc ++ [k]) []

namespace JournalAgent

/-! ## JournalAgent (journal_agent.py)

`_fallback_analysis` is embedded as `fallback_analysis` (Lean identifiers
cannot start with an underscore). -/

/-- The fixed positive-word list of `_fallback_analysis`. -/
def positive_words : List String :=
  ["happy", "joy", "excited", "grateful", "peaceful", "content"]

/-- The fixed negative-word list of `_fallback_analysis`. -/
def negative_words : List String :=
  ["sad", "angry", "frustrated", "anxious", "depressed", "worried"]

/-- `sum(1 for word in positive_words if word in content_lower)`. -/
def positiveCount (content : String) : Nat :=
  (positive_words.filter (fun w => wordIn w content)).length

/-- `sum(1 for word in negative_words if word in content_lower)`. -/
def negativeCount (content : String) : Nat :=
  (negative_words.filter (fun w => wordIn w content)).length

/-- Result record of `_fallback_analysis` / `analyze_journal_entry`. -/
structure JournalAnalysis where
  mood_score : Rat
  mood_label : String
  themes : List String
  emotional_triggers : List String
  stress_level : Nat
  key_insights : List String
  growth_areas : List String
  positive_patterns : List String
  suggested_focus : String
deriving DecidableEq, Repr

/-- `JournalAgent._fallback_analysis`: keyword mood classification and fixed
keyword-to-theme membership, translated line for line from the source. -/
def fallback_analysis (content : String) : JournalAnalysis :=
  let positive_count := positiveCount content
  let negative_count := negativeCount content
  let mood_score : Rat :=
    if positive_count > negative_count then 7
    else if negative_count > positive_count then 3
    else 5
  let mood_label : String :=
    if positive_count > negative_count then "positive"
    else if negative_count > positive_count then "negative"
    else "neutral"
  let themes : List String :=
    (if ["work", "job", "career", "office"].any (fun w => wordIn w content)
      then ["work"] else []) ++
    (if ["relationship", "friend", "family", "partner"].any (fun w => wordIn w content)
      then ["relationships"] else []) ++
    (if ["health", "exercise", "diet", "sleep"].any (fun w => wordIn w content)
      then ["health"] else []) ++
    (if ["stress", "anxiety", "worry", "fear"].any (fun w => wordIn w content)
      then ["stress"] else [])
  { mood_score := mood_score
    mood_label := mood_label
    themes := themes
    emotional_triggers := []
    stress_level := 5
    key_insights := ["Analysis completed with fallback method"]
    growth_areas := []
    positive_patterns := []
    suggested_focus := "Continue journaling to build patterns" }

/-- Extending journal content by one further word, separated by a space:
the claim-level notion of "adding a word without removing any existing
words". -/
def appendWord (c p : String) : String := c ++ " " ++ p

/-- Extending journal content by a list of further words. -/
def appendWords (c : String) (ps : List String) : String := ps.foldl appendWord c

/-- Parsed JSON reply of the mood chain; `none` models an absent key, read
back through `dict.get(key, default)`. -/
structure MoodReply where
  mood_score : Option Rat
  mood_label : Option String

/-- Parsed JSON reply of the theme-extractor chain. -/
structure ThemeReply where
  themes : Option (List String)

/-- Parsed JSON reply of the trigger-analyzer chain. -/
structure TriggerReply where
  emotional_triggers : Option (List String)
  stress_level : Option Nat

/-- Parsed JSON reply of the insights-generator chain. -/
structure InsightsReply where
  key_insights : Option (List String)
  growth_areas : Option (List String)
  positive_patterns : Option (List String)
  suggested_focus : Option String

/-- The external model boundary of `JournalAgent`: one oracle per chain.
`.error e` models a raised exception or a `json.loads` failure with text `e`. -/
structure JournalOracle where
  mood : String → Except String MoodReply
  themeRep : String → Except String ThemeReply
  triggers : String → Except String TriggerReply
  insights : String → MoodReply → ThemeReply → TriggerReply → Except String InsightsReply

/-- The body of the `try` block of `analyze_journal_entry` on the LLM path:
four sequential chain calls, then the result dict with `.get` defaults. -/
def analyze_journal_entry_llm (o : JournalOracle) (content : String) :
    Except String JournalAnalysis := do
  let mood ← o.mood content
  let th ← o.themeRep content
  let tr ← o.triggers content
  let ins ← o.insights content mood th tr
  pure
    { mood_score := mood.mood_score.getD 5
      mood_label := mood.mood_label.getD "neutral"
      themes := th.themes.getD []
      emotional_triggers := tr.emotional_triggers.getD []
      stress_level := tr.stress_level.getD 5
      key_insights := ins.key_insights.getD []
      growth_areas := ins.growth_areas.getD []
      positive_patterns := ins.positive_patterns.getD []
      suggested_focus := ins.suggested_focus.getD "" }

/-- `JournalAgent.analyze_journal_entry` (lines 112-154): LLM path when
`use_llm`, `_fallback_analysis` when there is no LLM, and the same fallback
from the `except` handler when any chain call or parse raises. -/
def analyze_journal_entry (use_llm : Bool) (o : JournalOracle) (content : String) :
    JournalAnalysis :=
  if use_llm then
    match analyze_journal_entry_llm o content with
    | .ok r => r
    | .error _ => fallback_analysis content
  else fallback_analysis content

/-- One decoded journal entry handed to `generate_weekly_summary` by the
route handler (mood score, decoded theme/trigger lists). -/
structure JEntryData where
  mood_score : Rat
  mood_label : String
  themes : List String
  emotional_triggers : List String
  created_at : String
deriving DecidableEq, Repr

/-- Result dict of `JournalAgent.generate_weekly_summary`.  The source also
builds an `insights` list of three formatted strings interpolating
`average_mood`, `mood_trend` and the most-discussed theme; the interpolated
values are exactly the fields below (`most_discussed_theme` is the
`max(theme_counts.items(), key=lambda x: x[1])[0] if theme_counts else 'None'`
expression of the third string). -/
structure WeeklySummary where
  average_mood : Rat
  mood_trend : String
  total_entries : Nat
  most_common_themes : List (String × Nat)
  most_common_triggers : List (String × Nat)
  mood_range_min : Rat
  mood_range_max : Rat
  most_discussed_theme : String
deriving DecidableEq, Repr

/-- `JournalAgent.generate_weekly_summary` (lines 202-243).  `none` models the
`{"message": "No entries to summarize"}` early return.  The trend compares
`mood_scores[-1]` with `mood_scores[0]` of the list exactly as supplied. -/
def generate_weekly_summary (entries : List JEntryData) : Option WeeklySummary :=
  match entries with
  | [] => none
  | e :: es =>
    let mood_scores := (e :: es).map (·.mood_score)
    let all_themes := ((e :: es).map (·.themes)).flatten
    let all_triggers := ((e :: es).map (·.emotional_triggers)).flatten
    let avg_mood := pySum mood_scores / (mood_scores.length : Rat)
    let firstScore := e.mood_score
    let lastScore := mood_scores.getLastD 0
    let mood_trend :=
      if lastScore > firstScore then "improving"
      else if lastScore < firstScore then "declining"
      else "stable"
    let theme_counts := countItems all_themes
    let trigger_counts := countItems all_triggers
    some
      { average_mood := avg_mood
        mood_trend := mood_trend
        total_entries := (e :: es).length
        most_common_themes := (sortDesc theme_counts).take 5
        most_common_triggers := (sortDesc trigger_counts).take 5
        mood_range_min := pyMinR mood_scores
        mood_range_max := pyMaxR mood_scores
        most_discussed_theme :=
          match maxByCount theme_counts with
          | some p => p.1
          | none => "None" }

end JournalAgent

namespace JournalAPI

/-- `GET /journal/weekly-summary/` (journal.py lines 127-162): the handler
selects the last 7 days of entries `ORDER BY created_at DESC` — that is, it
hands `generate_weekly_summary` the chronological window reversed. -/
def get_weekly_summary (chronological : List JournalAgent.JEntryData) :
    Option JournalAgent.WeeklySummary :=
  JournalAgent.generate_weekly_summary chronological.reverse

/-- Result dict of `GET /journal/themes/`. -/
structure ThemesRouteResult where
  recurring_themes : List (String × Nat)
  total_entries : Nat
  unique_themes : Nat
deriving DecidableEq, Repr

/-- `GET /journal/themes/` (journal.py lines 179-210): each stored entry is
modelled by its decoded `themes` list (an entry whose column is NULL or fails
the `isinstance` guards contributes the empty list, exactly as the loop then
extends `all_themes` by nothing). -/
def get_recurring_themes (entryThemes : List (List String)) : ThemesRouteResult :=
  let all_themes := entryThemes.flatten
  let theme_counts := countItems all_themes
  { recurring_themes := (sortDesc theme_counts).take 10
    total_entries := entryThemes.length
    unique_themes := theme_counts.length }

end JournalAPI

namespace ConversationAgent

/-! ## ConversationAgent (conversation_agent.py)

The process-wide `self.conversation_memories` dict is threaded explicitly as
an insertion-ordered association list from session id to transcript. -/

/-- One saved turn:
`memory.save_context({"input": user_message}, {"output": reply})`. -/
structure Turn where
  input : String
  output : String
deriving DecidableEq, Repr

/-- Contents of one `ConversationBufferMemory`. -/
abbrev Transcript := List Turn

/-- The `conversation_memories` dict. -/
abbrev MemoryMap := List (String × Transcript)

/-- `session_id in self.conversation_memories` / reading the entry. -/
def lookupMem (m : MemoryMap) (sid : String) : Option Transcript :=
  match m.find? (fun p => p.1 == sid) with
  | some p => some p.2
  | none => none

/-- `_get_conversation_memory` (lines 98-105): lazily creates an empty
transcript for an unseen session id (dict insertion appends at the end). -/
def get_conversation_memory (sid : String) (m : MemoryMap) :
    Transcript × MemoryMap :=
  match lookupMem m sid with
  | some t => (t, m)
  | none => ([], m ++ [(sid, [])])

/-- Overwrite the transcript stored under `sid`. -/
def setMem (m : MemoryMap) (sid : String) (t : Transcript) : MemoryMap :=
  m.map (fun p => if p.1 == sid then (p.1, t) else p)

/-- `del self.conversation_memories[session_id]` (no-op when absent, used
where the source guards with `in`). -/
def delMem (m : MemoryMap) (sid : String) : MemoryMap :=
  m.filter (fun p => !(p.1 == sid))

/-- The response dict of `generate_response` / `_fallback_response`; the
`fallback` flag models the `"fallback": True` key (`false` = key absent). -/
structure ChatResponse where
  response : String
  conversation_type : String
  theme : Option String
  session_id : String
  fallback : Bool
deriving DecidableEq, Repr

/-- `_fallback_response` (lines 173-204): static keyword-routed canned reply,
first matching keyword set wins. -/
def fallback_response (user_message : String) (conversation_type : String)
    (theme : Option String) (session_id : String) : ChatResponse :=
  let response :=
    if ["sad", "depressed", "down", "unhappy"].any (fun w => wordIn w user_message) then
      "I hear that you\x27re feeling down. What\x27s been on your mind lately?"
    else if ["happy", "excited", "good", "great"].any (fun w => wordIn w user_message) then
      "That\x27s wonderful! What\x27s contributing to your positive mood?"
    else if ["stress", "anxious", "worried", "nervous"].any (fun w => wordIn w user_message) then
      "Stress can be really challenging. Can you tell me more about what\x27s causing you concern?"
    else if ["work", "job", "career"].any (fun w => wordIn w user_message) then
      "Work can be a significant part of our lives. How are things going for you professionally?"
    else if ["relationship", "friend", "family"].any (fun w => wordIn w user_message) then
      "Relationships are so important. What\x27s happening in your relationships right now?"
    else
      "I\x27m here to listen and support you. What would you like to talk about today?"
  { response := response
    conversation_type := conversation_type
    theme := theme
    session_id := session_id
    fallback := true }

/-- The model boundary of one chat turn: `(prompt | llm).ainvoke({...})` with
the selected template (chosen by conversation type), the user message, the
theme, the session id and the transcript-so-far; `.error e` models a raised
exception with text `e`. -/
abbrev ChatOracle :=
  String → String → Option String → String → Transcript → Except String String

/-- `generate_response` (lines 107-171).  On the LLM path the memory is
fetched (and lazily created) *before* the model call; on success the turn is
appended via `save_context`; on an exception the handler returns the fallback
reply with the map as already mutated by the lazy creation. -/
def generate_response (use_llm : Bool) (chat : ChatOracle)
    (user_message : String) (session_id : String) (conversation_type : String)
    (theme : Option String) (m : MemoryMap) : ChatResponse × MemoryMap :=
  if use_llm then
    let mem := (get_conversation_memory session_id m).1
    let m1 := (get_conversation_memory session_id m).2
    match chat conversation_type user_message theme session_id mem with
    | .ok reply =>
      ({ response := reply
         conversation_type := conversation_type
         theme := theme
         session_id := session_id
         fallback := false },
       setMem m1 session_id (mem ++ [⟨user_message, reply⟩]))
    | .error _ =>
      (fallback_response user_message conversation_type theme session_id, m1)
  else
    (fallback_response user_message conversation_type theme session_id, m)

/-- Model boundary of the closing-summary chain of `end_conversation`
(`summary_chain.arun(conversation_history=str(memory.chat_memory.messages))`). -/
abbrev SummaryOracle := Transcript → Except String String

/-- Result dict of `end_conversation`; `summary = none` models the
summary-free dict of the non-LLM branch. -/
structure EndResult where
  session_id : String
  summary : Option String
  message : String
deriving DecidableEq, Repr

/-- `end_conversation` (lines 289-331).  When a transcript exists and the LLM
is available, the summary chain runs *before* `del conversation_memories[sid]`
and is not wrapped in any `try`: `.error e` models the exception propagating
to the caller with the map unchanged.  Otherwise the transcript (if any) is
deleted and the plain closing dict returned. -/
def end_conversation (use_llm : Bool) (summarize : SummaryOracle)
    (session_id : String) (m : MemoryMap) :
    Except String EndResult × MemoryMap :=
  match lookupMem m session_id, use_llm with
  | some mem, true =>
    match summarize mem with
    | .ok s =>
      (.ok { session_id := session_id
             summary := some s
             message := "Thank you for sharing with me. I hope our conversation was helpful." },
       delMem m session_id)
    | .error e => (.error e, m)
  | _, _ =>
    (.ok { session_id := session_id
           summary := none
           message := "Thank you for our conversation. I hope it was helpful." },
     delMem m session_id)

/-- One history entry as read by `suggest_conversation_topics`, with the
`entry.get(key, default)` defaults already applied. -/
structure HistEntry where
  themes : List String
  mood_label : String
  growth_areas : List String
deriving DecidableEq, Repr

/-- Python `l[-n:]`. -/
def pyLastN (n : Nat) (l : List α) : List α := l.drop (l.length - n)

/-- `suggest_conversation_topics` (lines 238-287). -/
def suggest_conversation_topics (user_history : List HistEntry) : List String :=
  if user_history.isEmpty then
    ["How are you feeling today?",
     "What\x27s been on your mind lately?",
     "Is there anything you\x27d like to explore or discuss?"]
  else
    let recent_themes := ((pyLastN 5 user_history).map (·.themes)).flatten
    let theme_counts := countItems recent_themes
    let top := match maxByCount theme_counts with
      | some p => ["Let\x27s explore your thoughts about " ++ p.1]
      | none => []
    let recent_moods := (pyLastN 3 user_history).map (·.mood_label)
    let moodSugg :=
      if recent_moods.contains "negative" then
        ["I notice you\x27ve been feeling down lately. Would you like to talk about what\x27s been challenging?"]
      else []
    let growthSugg := (pyLastN 3 user_history).filterMap (fun e =>
      match e.growth_areas with
      | [] => none
      | g :: _ => some ("I see you\x27ve been working on " ++ g ++ ". How\x27s that going?"))
    let suggestions := top ++ moodSugg ++ growthSugg
    let suggestions :=
      if suggestions.isEmpty then
        ["How has your week been so far?",
         "Is there anything you\x27re looking forward to?",
         "What\x27s been the highlight of your day?"]
      else suggestions
    suggestions.take 3

end ConversationAgent

namespace InsightsAgent

/-! ## InsightsAgent (insights_agent.py) -/

/-- One element of the `mood_data` list prepared by `generate_mood_insights`
(and the route handlers), with `entry.get(key, default)` defaults applied. -/
structure MoodEntryData where
  created_at : String
  mood_score : Rat
  mood_label : String
  energy_level : Int
  stress_level : Int
deriving DecidableEq, Repr

/-- Arithmetic mean (`np.mean` / `sum(...)/len(...)`); `0` for the
unreachable empty case. -/
def meanR (l : List Rat) : Rat := pySum l / (l.length : Rat)

/-- Population variance, i.e. the square of `np.std`.  The source buckets
volatility by `std > 2` and `std > 1`; since the standard deviation is
nonnegative these are exactly `variance > 4` and `variance > 1`, which keeps
the embedding inside exact rational arithmetic. -/
def popVar (l : List Rat) : Rat :=
  meanR (l.map (fun x => (x - meanR l) ^ 2))

/-- `round(x, 2)` on a rational.  (Python rounds float ties to even; no
theorem below evaluates `round` at a tie.) -/
def round2 (q : Rat) : Rat := ((round (q * 100) : Int) : Rat) / 100

/-- `round(x, 3)` on a rational. -/
def round3 (q : Rat) : Rat := ((round (q * 1000) : Int) : Rat) / 1000

/-- `np.argmax`: index of the first maximal element. -/
def argmaxIdx : List Rat → Nat
  | [] => 0
  | x :: xs => go 1 0 x xs
where
  go : Nat → Nat → Rat → List Rat → Nat
    | _, bi, _, [] => bi
    | i, bi, bv, y :: ys => if bv < y then go (i + 1) i y ys else go (i + 1) bi bv ys

/-- `np.argmin`: index of the first minimal element. -/
def argminIdx : List Rat → Nat
  | [] => 0
  | x :: xs => go 1 0 x xs
where
  go : Nat → Nat → Rat → List Rat → Nat
    | _, bi, _, [] => bi
    | i, bi, bv, y :: ys => if y < bv then go (i + 1) i y ys else go (i + 1) bi bv ys

/-- Parsed JSON reply of the trend-analyzer chain (only the keys the result
dict reads back). -/
structure TrendReply where
  insights : Option (List String)
  key_changes : Option (List String)
deriving DecidableEq, Repr

/-- Model boundary of the trend-analyzer chain call of
`generate_mood_insights` (mood data and time period are its template
variables). -/
abbrev TrendOracle := List MoodEntryData → String → Except String TrendReply

/-- Result dict of `generate_mood_insights`.  The fallback dict has no
`best_day`, `worst_day` or `mood_range` keys: those fields are `none` there. -/
structure MoodInsights where
  average_mood : Rat
  mood_trend : String
  mood_volatility : String
  best_day : Option String
  worst_day : Option String
  mood_range : Option (Rat × Rat)
  total_entries : Nat
  insights : List String
  key_changes : List String
deriving DecidableEq, Repr

/-- `_fallback_mood_insights` (lines 342-357): mean of the supplied scores,
hard-coded `"stable"` trend and `"medium"` volatility, no best/worst day. -/
def fallback_mood_insights (mood_entries : List MoodEntryData) :
    Option MoodInsights :=
  match mood_entries with
  | [] => none
  | e :: es =>
    let mood_scores := (e :: es).map (·.mood_score)
    some
      { average_mood := round2 (meanR mood_scores)
        mood_trend := "stable"
        mood_volatility := "medium"
        best_day := none
        worst_day := none
        mood_range := none
        total_entries := (e :: es).length
        insights := ["Basic mood analysis completed"]
        key_changes := [] }

/-- `generate_mood_insights` (lines 124-188).  `none` models the
`{"message": "No mood data available for analysis"}` early return.  The
statistics are computed inside the `try` block; the LLM call happens last and
any exception (or parse failure) routes to `_fallback_mood_insights`,
discarding the computed trend and best/worst day. -/
def generate_mood_insights (use_llm : Bool) (o : TrendOracle)
    (mood_entries : List MoodEntryData) (time_period : String) :
    Option MoodInsights :=
  match mood_entries with
  | [] => none
  | e :: es =>
    let mood_scores := (e :: es).map (·.mood_score)
    let avg_mood := meanR mood_scores
    let trend :=
      if (e :: es).length ≥ 2 then
        if mood_scores.getLastD 0 > e.mood_score then "improving"
        else if mood_scores.getLastD 0 < e.mood_score then "declining"
        else "stable"
      else "stable"
    let best_day_idx := argmaxIdx mood_scores
    let worst_day_idx := argminIdx mood_scores
    if use_llm then
      match o (e :: es) time_period with
      | .ok r =>
        some
          { average_mood := round2 avg_mood
            mood_trend := trend
            mood_volatility :=
              if popVar mood_scores > 4 then "high"
              else if popVar mood_scores > 1 then "medium"
              else "low"
            best_day := some (((e :: es).getD best_day_idx e).created_at)
            worst_day := some (((e :: es).getD worst_day_idx e).created_at)
            mood_range := some (pyMinR mood_scores, pyMaxR mood_scores)
            total_entries := (e :: es).length
            insights := r.insights.getD []
            key_changes := r.key_changes.getD [] }
      | .error _ => fallback_mood_insights (e :: es)
    else fallback_mood_insights (e :: es)

/-- One journal entry as `detect_patterns` reads it: its decoded theme and
trigger lists. -/
structure PatternEntry where
  themes : List String
  emotional_triggers : List String
deriving DecidableEq, Repr

/-- Parsed JSON reply of the pattern-detector chain. -/
structure PatternReply where
  insights : Option (List String)
  positive_patterns : Option (List String)
  challenging_patterns : Option (List String)
deriving DecidableEq, Repr

/-- Model boundary of the pattern-detector chain call (it receives the first
ten journal entries and mood entries). -/
abbrev PatternOracle :=
  List PatternEntry → List MoodEntryData → Except String PatternReply

/-- Result dict of `detect_patterns`.  The fallback dict has no
`most_common_theme` / `most_common_trigger` keys: the outer `Option` is
`none` there, while the inner `Option` is the Python `None` stored when the
respective count table is empty. -/
structure PatternsRec where
  recurring_themes : List (String × Nat)
  emotional_triggers : List (String × Nat)
  most_common_theme : Option (Option String)
  most_common_trigger : Option (Option String)
  total_entries : Nat
  insights : List String
  positive_patterns : List String
  challenging_patterns : List String
deriving DecidableEq, Repr

/-- `_fallback_pattern_analysis` (lines 359-381): top-5 theme table only,
empty trigger table. -/
def fallback_pattern_analysis (journal_entries : List PatternEntry) :
    Option PatternsRec :=
  match journal_entries with
  | [] => none
  | _ =>
    let themes := (journal_entries.map (·.themes)).flatten
    let theme_counts := countItems themes
    some
      { recurring_themes := (sortDesc theme_counts).take 5
        emotional_triggers := []
        most_common_theme := none
        most_common_trigger := none
        total_entries := journal_entries.length
        insights := ["Basic pattern analysis completed"]
        positive_patterns := []
        challenging_patterns := [] }

/-- `detect_patterns` (lines 250-306).  `none` models the
`{"message": "No journal data available for pattern analysis"}` early return;
any model exception or parse failure routes to `_fallback_pattern_analysis`. -/
def detect_patterns (use_llm : Bool) (o : PatternOracle)
    (journal_entries : List PatternEntry) (mood_entries : List MoodEntryData) :
    Option PatternsRec :=
  match journal_entries with
  | [] => none
  | _ =>
    let all_themes := (journal_entries.map (·.themes)).flatten
    let all_triggers := (journal_entries.map (·.emotional_triggers)).flatten
    let theme_counts := countItems all_themes
    let trigger_counts := countItems all_triggers
    if use_llm then
      match o (journal_entries.take 10) (mood_entries.take 10) with
      | .ok r =>
        some
          { recurring_themes := (sortDesc theme_counts).take 5
            emotional_triggers := (sortDesc trigger_counts).take 5
            most_common_theme := some ((maxByCount theme_counts).map (·.1))
            most_common_trigger := some ((maxByCount trigger_counts).map (·.1))
            total_entries := journal_entries.length
            insights := r.insights.getD []
            positive_patterns := r.positive_patterns.getD []
            challenging_patterns := r.challenging_patterns.getD [] }
      | .error _ => fallback_pattern_analysis journal_entries
    else fallback_pattern_analysis journal_entries

/-- One element of the `habit_data` list (habit name, value, unit, date). -/
structure HabitEntryData where
  habit_name : String
  habit_value : Rat
  habit_unit : String
  created_at : String
deriving DecidableEq, Repr

/-- Per-habit entry of the `correlations` dict. -/
structure CorrRec where
  correlation : Rat
  impact : String
deriving DecidableEq, Repr

/-- Parsed JSON reply of the correlation-analyzer chain. -/
structure CorrReply where
  insights : Option (List String)
  recommendations : Option (List String)
deriving DecidableEq, Repr

/-- Model boundary of the correlation-analyzer chain call. -/
abbrev CorrOracle :=
  List MoodEntryData → List HabitEntryData → Except String CorrReply

/-- The three possible result dicts of `analyze_habit_correlations`:
`insufficient` is `{"message": "Insufficient data ..."}`, `ok` the normal
dict, and `failure e` the `except` handler's
`{"message": "Unable to analyze habit correlations", "error": str(e)}`. -/
inductive HCResult where
  | insufficient
  | ok (correlations : List (String × CorrRec)) (positive_habits : List String)
      (negative_habits : List String) (insights : List String)
      (recommendations : List String)
  | failure (error : String)
deriving DecidableEq, Repr

/-- `analyze_habit_correlations` (lines 190-248).  The per-habit
"correlation" is the documented placeholder `np.random.uniform(-0.8, 0.8)`,
modelled by the `rand` oracle (one draw per distinct habit name, in
first-seen order as `pandas` `unique()` yields them).  A model exception is
caught by the `except` handler, which returns an error dict instead of any
fallback analysis. -/
def analyze_habit_correlations (use_llm : Bool) (rand : String → Rat)
    (o : CorrOracle) (mood_entries : List MoodEntryData)
    (habit_entries : List HabitEntryData) : HCResult :=
  if mood_entries.isEmpty || habit_entries.isEmpty then .insufficient
  else
    let names := firstSeen (habit_entries.map (·.habit_name))
    let correlations := names.filterMap (fun nm =>
      let habit_data := habit_entries.filter (fun h => h.habit_name == nm)
      if habit_data.length > 1 ∧ mood_entries.length > 1 then
        let c := rand nm
        some (nm,
          { correlation := round3 c
            impact :=
              if c > 3 / 10 then "positive"
              else if c < -(3 / 10) then "negative"
              else "neutral" })
      else none)
    let positive_habits :=
      correlations.filterMap (fun p => if p.2.impact == "positive" then some p.1 else none)
    let negative_habits :=
      correlations.filterMap (fun p => if p.2.impact == "negative" then some p.1 else none)
    if use_llm then
      match o (mood_entries.take 10) (habit_entries.take 10) with
      | .ok r =>
        .ok correlations positive_habits negative_habits
          (r.insights.getD []) (r.recommendations.getD [])
      | .error e => .failure e
    else
      .ok correlations positive_habits negative_habits
        ["Basic habit correlation analysis completed"]
        ["Continue tracking habits and mood to build patterns"]

/-- The `week_summary` content dict (model-written or the static fallback). -/
structure WeekSummaryContent where
  overall_mood : String
  key_achievements : List String
  areas_of_growth : List String
  recommendations : List String
  next_week_focus : String
  encouragement : String
deriving DecidableEq, Repr

/-- `_fallback_weekly_summary_content` (lines 383-397). -/
def fallback_weekly_summary_content : WeekSummaryContent :=
  { overall_mood := "neutral"
    key_achievements := ["Completed weekly reflection"]
    areas_of_growth := ["Continue journaling and mood tracking"]
    recommendations := ["Keep up the good work"]
    next_week_focus := "General wellness"
    encouragement := "You\x27re doing great! Keep reflecting and growing." }

/-- Result dict of `InsightsAgent.generate_weekly_summary`: the narrative
plus the three analyses passed through unchanged (`generated_at` is a
wall-clock timestamp and is not modelled). -/
structure WeeklyBundle (α β γ : Type) where
  week_summary : WeekSummaryContent
  mood_insights : α
  habit_correlations : β
  pattern_analysis : γ
deriving DecidableEq, Repr

/-- Model boundary of the summary-generator chain call. -/
abbrev SummGenOracle (α β γ : Type) := α → β → γ → Except String WeekSummaryContent

/-- `InsightsAgent.generate_weekly_summary` (lines 308-340): model-written
narrative when available, `_fallback_weekly_summary_content` otherwise, and
the whole `_fallback_weekly_summary` bundle from the `except` handler — the
same dict as the non-LLM path. -/
def generate_weekly_summary (use_llm : Bool) (o : SummGenOracle α β γ)
    (mood_insights : α) (habit_correlations : β) (pattern_analysis : γ) :
    WeeklyBundle α β γ :=
  if use_llm then
    match o mood_insights habit_correlations pattern_analysis with
    | .ok s =>
      { week_summary := s
        mood_insights := mood_insights
        habit_correlations := habit_correlations
        pattern_analysis := pattern_analysis }
    | .error _ =>
      { week_summary := fallback_weekly_summary_content
        mood_insights := mood_insights
        habit_correlations := habit_correlations
        pattern_analysis := pattern_analysis }
  else
    { week_summary := fallback_weekly_summary_content
      mood_insights := mood_insights
      habit_correlations := habit_correlations
      pattern_analysis := pattern_analysis }

end InsightsAgent

namespace PlannerAgent

/-! ## PlannerAgent (planner_agent.py) -/

/-- One theme record of a weekly plan. -/
structure PlanTheme where
  theme : String
  priority : Nat
  conversation_type : String
  goals : List String
  rationale : String
deriving DecidableEq, Repr

/-- Result dict of `_analyze_patterns`. -/
structure PatternAnalysis where
  recurring_themes : List (String × Nat)
  mood_trend : String
  average_mood : Rat
  total_entries : Nat
  conversation_count : Nat
deriving DecidableEq, Repr

/-- `_analyze_patterns` (lines 192-243): pure counting and averaging over the
last ten journal entries (modelled by their theme lists) and the last seven
mood scores; no model call, and its `except` handler is unreachable in the
embedding. -/
def analyze_patterns (journal_themes : List (List String)) (mood_data : List Rat)
    (conversation_count : Nat) : PatternAnalysis :=
  let recent_entries := ConversationAgent.pyLastN 10 journal_themes
  let mood_trends := ConversationAgent.pyLastN 7 mood_data
  let all_themes := recent_entries.flatten
  let theme_counts := countItems all_themes
  let avg_mood := if mood_trends.isEmpty then 5 else InsightsAgent.meanR mood_trends
  let mood_trend :=
    if mood_trends.length ≥ 2 then
      if mood_trends.getLastD 0 > mood_trends.headD 0 then "improving"
      else if mood_trends.getLastD 0 < mood_trends.headD 0 then "declining"
      else "stable"
    else "stable"
  { recurring_themes := (sortDesc theme_counts).take 5
    mood_trend := mood_trend
    average_mood := avg_mood
    total_entries := recent_entries.length
    conversation_count := conversation_count }

/-- Parsed JSON reply of the theme-selector chain / result of
`_fallback_theme_selection`. -/
structure ThemeSelection where
  selected_themes : List String
  reasoning : String
  urgency_level : String
deriving DecidableEq, Repr

/-- `_fallback_theme_selection` (lines 261-267). -/
def fallback_theme_selection : ThemeSelection :=
  { selected_themes := ["personal growth", "emotional awareness", "relationships"]
    reasoning := "General wellness themes"
    urgency_level := "medium" }

/-- Parsed JSON reply of the weekly-planner chain; `create_weekly_plan`
reads it back through `.get` with defaults. -/
structure PlanReply where
  weekly_themes : Option (List PlanTheme)
  overall_focus : Option String
  expected_outcomes : Option (List String)
deriving DecidableEq, Repr

/-- `_fallback_weekly_plan` (lines 289-307); its two arguments are unused in
the source as well. -/
def fallback_weekly_plan (_pa : PatternAnalysis) (_ts : ThemeSelection) : PlanReply :=
  { weekly_themes := some
      [{ theme := "personal growth"
         priority := 1
         conversation_type := "general"
         goals := ["Explore current challenges", "Identify growth opportunities"]
         rationale := "General wellness focus" }]
    overall_focus := some "Personal growth and reflection"
    expected_outcomes := some ["Increased self-awareness", "Better emotional understanding"] }

/-- The two model boundaries of the planner: the theme-selector chain of
`_select_themes` and the weekly-planner chain of `_generate_weekly_plan`. -/
structure PlannerOracle where
  selectThemes : PatternAnalysis → Except String ThemeSelection
  genPlan : PatternAnalysis → ThemeSelection → Except String PlanReply

/-- Result dict of `create_weekly_plan` (`week_start` and `created_at` are
wall-clock timestamps and are not modelled). -/
structure WeeklyPlanOut where
  user_id : Int
  themes : List PlanTheme
  overall_focus : String
  expected_outcomes : List String
  pattern_insights : PatternAnalysis
  status : String
deriving DecidableEq, Repr

/-- `create_weekly_plan` (lines 148-190).  `_select_themes` and
`_generate_weekly_plan` each recover from a model exception via their own
fallbacks; the outer `except` (returning `_create_fallback_plan`) has no
remaining failure source in the embedding. -/
def create_weekly_plan (use_llm : Bool) (o : PlannerOracle) (user_id : Int)
    (journal_themes : List (List String)) (mood_data : List Rat)
    (conversation_count : Nat) : WeeklyPlanOut :=
  let pa := analyze_patterns journal_themes mood_data conversation_count
  let theme_selection :=
    if use_llm then
      match o.selectThemes pa with
      | .ok t => t
      | .error _ => fallback_theme_selection
    else fallback_theme_selection
  let weekly_plan :=
    if use_llm then
      match o.genPlan pa theme_selection with
      | .ok w => w
      | .error _ => fallback_weekly_plan pa theme_selection
    else fallback_weekly_plan pa theme_selection
  { user_id := user_id
    themes := weekly_plan.weekly_themes.getD []
    overall_focus := weekly_plan.overall_focus.getD "Personal growth and reflection"
    expected_outcomes := weekly_plan.expected_outcomes.getD []
    pattern_insights := pa
    status := "active" }

/-- One recent-activity event handed to `adjust_plan_based_on_progress`. -/
structure Activity where
  type : String
  theme : Option String
  key_insights : List String
deriving DecidableEq, Repr

/-- A current plan as the adjuster sees it: its theme list, its
`adjusted_at` stamp (if any), and all remaining key-value pairs, which
`{**current_plan, ...}` passes through unchanged. -/
structure CurrentPlan where
  themes : List PlanTheme
  adjusted_at : Option String
  others : List (String × String)
deriving DecidableEq, Repr

/-- The `"recent insights"` theme appended when recent journal activity
carried insights. -/
def recent_insights_theme : PlanTheme :=
  { theme := "recent insights"
    priority := 2
    conversation_type := "socratic"
    goals := ["Explore recent insights", "Deepen understanding"]
    rationale := "Based on recent journal insights" }

/-- The `completed_themes` accumulation of `adjust_plan_based_on_progress`:
themes of conversation activities (Python truthiness: a missing or
empty-string theme does not count). -/
def completed_themes_of (recent_activity : List Activity) : List String :=
  recent_activity.filterMap (fun a =>
    if a.type == "conversation" then
      match a.theme with
      | some t => if t ≠ "" then some t else none
      | none => none
    else none)

/-- The `new_insights` accumulation of `adjust_plan_based_on_progress`: all
`key_insights` carried by journal activities. -/
def new_insights_of (recent_activity : List Activity) : List String :=
  (recent_activity.filterMap (fun a =>
    if a.type == "journal" then some a.key_insights else none)).flatten

/-- `adjust_plan_based_on_progress` (lines 336-379): drops every plan theme
whose name is carried by a conversation activity (Python truthiness: an
empty-string theme does not count), appends the `"recent insights"` theme
when any journal activity has a nonempty `key_insights` list, and stamps
`adjusted_at` (`now`); everything else in the plan dict passes through.  No
model call occurs: the function does not take an oracle. -/
def adjust_plan_based_on_progress (current_plan : CurrentPlan)
    (recent_activity : List Activity) (now : String) : CurrentPlan :=
  let adjusted_themes :=
    current_plan.themes.filter
      (fun th => !((completed_themes_of recent_activity).contains th.theme))
  let adjusted_themes :=
    if (new_insights_of recent_activity).isEmpty then adjusted_themes
    else adjusted_themes ++ [recent_insights_theme]
  { current_plan with themes := adjusted_themes, adjusted_at := some now }

end PlannerAgent

/-! ## Supporting lemmas -/

theorem mem_insDesc {z x : String × Nat} {l : List (String × Nat)} :
    z ∈ insDesc x l ↔ z = x ∨ z ∈ l := by
  induction l with
  | nil => simp [insDesc]
  | cons y ys ih =>
    by_cases h : y.2 ≤ x.2
    · simp [insDesc, h]
    · simp [insDesc, h, ih]
      tauto

theorem pairwise_insDesc {x : String × Nat} {l : List (String × Nat)}
    (h : l.Pairwise (fun a b => b.2 ≤ a.2)) :
    (insDesc x l).Pairwise (fun a b => b.2 ≤ a.2) := by
  induction l with
  | nil => simp [insDesc]
  | cons y ys ih =>
    rcases List.pairwise_cons.mp h with ⟨hy, hys⟩
    by_cases hc : y.2 ≤ x.2
    · simp only [insDesc, if_pos hc]
      refine List.pairwise_cons.mpr ⟨?_, h⟩
      intro z hz
      rcases List.mem_cons.mp hz with rfl | hz
      · exact hc
      · exact le_trans (hy z hz) hc
    · simp only [insDesc, if_neg hc]
      refine List.pairwise_cons.mpr ⟨?_, ih hys⟩
      intro z hz
      rcases mem_insDesc.mp hz with rfl | hz
      · exact le_of_not_le hc
      · exact hy z hz

/-- The stable descending sort is sorted descending by count. -/
theorem sortDesc_pairwise (l : List (String × Nat)) :
    (sortDesc l).Pairwise (fun a b => b.2 ≤ a.2) := by
  induction l with
  | nil => simp [sortDesc]
  | cons x xs ih => exact pairwise_insDesc ih

theorem filter_insDesc (x : String × Nat) (l : List (String × Nat)) (k : Nat) :
    (insDesc x l).filter (fun p => p.2 == k) =
      if x.2 == k then x :: l.filter (fun p => p.2 == k)
      else l.filter (fun p => p.2 == k) := by
  induction l with
  | nil =>
    by_cases hx : x.2 = k <;> simp [insDesc, List.filter_cons, hx]
  | cons y ys ih =>
    by_cases hc : y.2 ≤ x.2
    · simp [insDesc, if_pos hc, List.filter_cons]
    · have hlt : x.2 < y.2 := lt_of_not_le hc
      simp only [insDesc, if_neg hc, List.filter_cons, ih]
      by_cases hx : x.2 = k
      · have hy : ¬ y.2 = k := by omega
        simp [hx, hy]
      · simp [hx]

/-- Stability of the descending sort: for each count value the elements
carrying that count appear in the same (first-seen) order as in the input. -/
theorem sortDesc_filter (l : List (String × Nat)) (k : Nat) :
    (sortDesc l).filter (fun p => p.2 == k) = l.filter (fun p => p.2 == k) := by
  induction l with
  | nil => rfl
  | cons x xs ih => simp [sortDesc, filter_insDesc, List.filter_cons, ih]

/-- `sorted(countItems(keys).items(), key=count, reverse=True)[:cap]` is a
well-formed truncated frequency table. -/
theorem tableOK_sortTake (keys : List String) (cap : Nat) :
    TableOK keys cap ((sortDesc (countItems keys)).take cap) := by
  refine ⟨?_, ?_, ?_⟩
  · exact (sortDesc_pairwise (countItems keys)).sublist (List.take_sublist _ _)
  · exact List.length_take_le _ _
  · intro k
    refine ⟨((sortDesc (countItems keys)).drop cap).filter (fun p => p.2 == k), ?_⟩
    rw [← List.filter_append, List.take_append_drop, sortDesc_filter]

/-- The empty table is well formed (the fallback pattern analysis returns an
empty trigger table). -/
theorem tableOK_nil (keys : List String) (cap : Nat) : TableOK keys cap [] := by
  refine ⟨List.Pairwise.nil, Nat.zero_le _, fun k => ⟨(countItems keys).filter (fun p => p.2 == k), rfl⟩⟩

/-- `lookupMem` distributes over append: the first map wins. -/
theorem lookupMem_append (m₁ m₂ : ConversationAgent.MemoryMap) (sid : String) :
    ConversationAgent.lookupMem (m₁ ++ m₂) sid =
      match ConversationAgent.lookupMem m₁ sid with
      | some t => some t
      | none => ConversationAgent.lookupMem m₂ sid := by
  induction m₁ with
  | nil => simp [ConversationAgent.lookupMem]
  | cons p m₁ ih =>
    by_cases hp : p.1 == sid <;>
      simp [ConversationAgent.lookupMem, List.find?, hp] <;>
      simpa [ConversationAgent.lookupMem] using ih

theorem occursIn_nil (l : List Char) : occursIn [] l = true := by
  cases l <;> rfl

theorem isPfx_append {w u : List Char} (v : List Char) (h : isPfx w u = true) :
    isPfx w (u ++ v) = true := by
  induction w generalizing u with
  | nil => rfl
  | cons a as ih =>
    cases u with
    | nil => simp [isPfx] at h
    | cons b bs =>
      simp only [isPfx, Bool.and_eq_true, beq_iff_eq] at h
      simp only [List.cons_append, isPfx, Bool.and_eq_true, beq_iff_eq]
      exact ⟨h.1, ih h.2⟩

theorem occursIn_append_right {w a : List Char} (b : List Char)
    (h : occursIn w a = true) : occursIn w (a ++ b) = true := by
  induction a with
  | nil =>
    cases w with
    | nil => exact occursIn_nil b
    | cons c cs => simp [occursIn, isPfx] at h
  | cons x a' ih =>
    simp only [occursIn, Bool.or_eq_true] at h
    simp only [List.cons_append, occursIn, Bool.or_eq_true]
    rcases h with h1 | h2
    · exact Or.inl (isPfx_append b h1)
    · exact Or.inr (ih h2)

theorem occursIn_append_left {w b : List Char} (a : List Char)
    (h : occursIn w b = true) : occursIn w (a ++ b) = true := by
  induction a with
  | nil => exact h
  | cons x a' ih =>
    simp only [List.cons_append, occursIn, Bool.or_eq_true]
    exact Or.inr ih

/-- If a keyword contains no occurrence of the separator character, a prefix
match that reaches across the separator already matched before it. -/
theorem isPfx_sep (sep : Char) :
    ∀ w : List Char, sep ∉ w →
      ∀ u v : List Char, isPfx w (u ++ sep :: v) = true → isPfx w u = true := by
  intro w
  induction w with
  | nil => intro _ u v _; rfl
  | cons a as ih =>
    intro hsep u v h
    cases u with
    | nil =>
      simp only [List.nil_append, isPfx, Bool.and_eq_true, beq_iff_eq] at h
      exact absurd (h.1 ▸ List.mem_cons_self a as) hsep
    | cons b bs =>
      simp only [List.cons_append, isPfx, Bool.and_eq_true, beq_iff_eq] at h
      simp only [isPfx, Bool.and_eq_true, beq_iff_eq]
      exact ⟨h.1, ih (fun hm => hsep (List.mem_cons_of_mem a hm)) bs v h.2⟩

/-- A keyword free of the separator character that occurs in `a ++ sep :: b`
occurs entirely inside `a` or inside `b`. -/
theorem occursIn_sep_split (sep : Char) (w : List Char) (hsep : sep ∉ w) :
    ∀ a b : List Char, occursIn w (a ++ sep :: b) = true →
      occursIn w a = true ∨ occursIn w b = true := by
  intro a
  induction a with
  | nil =>
    intro b h
    simp only [List.nil_append, occursIn, Bool.or_eq_true] at h
    rcases h with h1 | h2
    · cases w with
      | nil => exact Or.inl rfl
      | cons c cs =>
        simp only [isPfx, Bool.and_eq_true, beq_iff_eq] at h1
        exact absurd (h1.1 ▸ List.mem_cons_self c cs) hsep
    · exact Or.inr h2
  | cons x a' ih =>
    intro b h
    simp only [List.cons_append, occursIn, Bool.or_eq_true] at h
    rcases h with h1 | h2
    · have hx : isPfx w (x :: a') = true := isPfx_sep sep w hsep (x :: a') b h1
      refine Or.inl ?_
      simp only [occursIn, Bool.or_eq_true]
      exact Or.inl hx
    · rcases ih b h2 with h3 | h3
      · refine Or.inl ?_
        simp only [occursIn, Bool.or_eq_true]
        exact Or.inr h3
      · exact Or.inr h3

/-- Lower-casing distributes over the word-append used in the monotonicity
claim, and the separating space survives. -/
theorem lowerChars_appendWord (c p : String) :
    lowerChars (JournalAgent.appendWord c p) =
      lowerChars c ++ ' ' :: lowerChars p := by
  unfold JournalAgent.appendWord lowerChars
  rw [String.data_append, String.data_append]
  have hsp : (" " : String).data = [' '] := rfl
  rw [hsp, List.append_assoc, List.map_append]
  rfl

theorem wordIn_appendWord_of_wordIn {w : String} (c p : String)
    (h : wordIn w c = true) : wordIn w (JournalAgent.appendWord c p) = true := by
  unfold wordIn at h ⊢
  rw [lowerChars_appendWord]
  exact occursIn_append_right _ h

/-- For a keyword without spaces that does not occur in the appended word,
occurrence in the extended content is exactly occurrence in the original. -/
theorem wordIn_appendWord_iff (w c p : String) (hsep : ' ' ∉ w.data)
    (hnp : occursIn w.data (lowerChars p) = false) :
    wordIn w (JournalAgent.appendWord c p) = wordIn w c := by
  unfold wordIn
  rw [lowerChars_appendWord]
  cases hwc : occursIn w.data (lowerChars c) with
  | true => exact occursIn_append_right _ hwc
  | false =>
    rw [Bool.eq_false_iff]
    intro htrue
    rcases occursIn_sep_split ' ' w.data hsep (lowerChars c) (lowerChars p) htrue with h | h
    · exact absurd h (by simp [hwc])
    · exact absurd h (by simp [hnp])

theorem filter_length_mono {α : Type} (p q : α → Bool) :
    ∀ l : List α, (∀ x ∈ l, p x = true → q x = true) →
      (l.filter p).length ≤ (l.filter q).length := by
  intro l h
  induction l with
  | nil => simp
  | cons x xs ih =>
    have hxs := ih (fun y hy hp => h y (List.mem_cons_of_mem x hy) hp)
    by_cases hx : p x = true
    · have hqx := h x (List.mem_cons_self x xs) hx
      simp only [List.filter_cons, hx, hqx, if_true, List.length_cons]
      omega
    · by_cases hqx : q x = true <;>
        simp only [List.filter_cons, hx, hqx, if_true, if_false, Bool.false_eq_true,
          List.length_cons] <;>
        omega

/-- Appending one positive-list word leaves the negative count unchanged: no
negative keyword contains a space, and no negative keyword occurs inside any
positive-list word. -/
theorem negativeCount_appendWord (c p : String) (hp : p ∈ JournalAgent.positive_words) :
    JournalAgent.negativeCount (JournalAgent.appendWord c p) =
      JournalAgent.negativeCount c := by
  unfold JournalAgent.negativeCount
  apply congrArg List.length
  apply List.filter_congr
  intro w hw
  apply wordIn_appendWord_iff
  · have hall : ∀ w ∈ JournalAgent.negative_words, ' ' ∉ w.data := by decide
    exact hall w hw
  · have hall : ∀ p ∈ JournalAgent.positive_words, ∀ w ∈ JournalAgent.negative_words,
        occursIn w.data (lowerChars p) = false := by decide
    exact hall p hp w hw

/-- Appending one word never loses a positive-count match. -/
theorem positiveCount_appendWord_le (c p : String) :
    JournalAgent.positiveCount c ≤
      JournalAgent.positiveCount (JournalAgent.appendWord c p) := by
  unfold JournalAgent.positiveCount
  exact filter_length_mono _ _ _
    (fun w _ hwc => wordIn_appendWord_of_wordIn c p hwc)

/-- One appended positive word never lowers the fallback mood score. -/
theorem fallback_mood_score_step (c p : String) (hp : p ∈ JournalAgent.positive_words) :
    (JournalAgent.fallback_analysis c).mood_score ≤
      (JournalAgent.fallback_analysis (JournalAgent.appendWord c p)).mood_score := by
  have hneg := negativeCount_appendWord c p hp
  have hpos := positiveCount_appendWord_le c p
  simp only [JournalAgent.fallback_analysis, hneg]
  split_ifs <;> try norm_num
  all_goals omega

/-! ## Claim theorems -/

/-- C1: the spec states that `end_conversation` always removes the session's
transcript from the in-memory map, even when the model call producing the
closing summary fails.  The code calls the summary chain *before* the `del`
and without a `try`: evaluated at a session with a stored transcript, an
available LLM and a failing model call, the exception propagates and the
transcript is still in the map afterwards. -/
theorem c1_end_conversation_model_failure_leaves_transcript :
    ConversationAgent.end_conversation true (fun _ => Except.error "model failure") "s"
        [("s", [⟨"hi", "hello"⟩])] =
      (Except.error "model failure", [("s", [⟨"hi", "hello"⟩])]) ∧
    ConversationAgent.lookupMem
        (ConversationAgent.end_conversation true (fun _ => Except.error "model failure") "s"
          [("s", [⟨"hi", "hello"⟩])]).2 "s" = some [⟨"hi", "hello"⟩] :=
  ⟨rfl, rfl⟩

/-- C2 (counterexample): on the journal content
"I feel anxious about my job and my family relationship" the fallback
analysis does *not* return themes {work, relationships, stress} with a
neutral 5.0 mood: "anxious" is on the negative-word list and none of the
stress keywords (stress, anxiety, worry, fear) occurs as a substring. -/
theorem c2_counterexample :
    "stress" ∉ (JournalAgent.fallback_analysis
        "I feel anxious about my job and my family relationship").themes ∧
    (JournalAgent.fallback_analysis
        "I feel anxious about my job and my family relationship").mood_label ≠ "neutral" ∧
    (JournalAgent.fallback_analysis
        "I feel anxious about my job and my family relationship").mood_score ≠ 5 := by
  decide

/-- C2 (amended): with no model available, the fallback analysis of
"I feel anxious about my job and my family relationship" returns themes
["work", "relationships"] (the word "anxious" matches no stress keyword),
mood_label "negative" and mood_score 3.0 ("anxious" is on the fixed
negative-word list, and no positive keyword occurs). -/
theorem c2_fallback_scenario :
    JournalAgent.fallback_analysis
        "I feel anxious about my job and my family relationship" =
      { mood_score := 3
        mood_label := "negative"
        themes := ["work", "relationships"]
        emotional_triggers := []
        stress_level := 5
        key_insights := ["Analysis completed with fallback method"]
        growth_areas := []
        positive_patterns := []
        suggested_focus := "Continue journaling to build patterns" } := by
  decide

/-- C3: the fallback mood classification counts which fixed positive-list
words occur in the lowered content against which fixed negative-list words
occur: positive majority gives 7.0/"positive", negative majority
3.0/"negative", a tie 5.0/"neutral". -/
theorem c3_fallback_mood_classification (content : String) :
    (JournalAgent.positive_words.countP (fun w => wordIn w content) >
        JournalAgent.negative_words.countP (fun w => wordIn w content) →
      (JournalAgent.fallback_analysis content).mood_score = 7 ∧
      (JournalAgent.fallback_analysis content).mood_label = "positive") ∧
    (JournalAgent.negative_words.countP (fun w => wordIn w content) >
        JournalAgent.positive_words.countP (fun w => wordIn w content) →
      (JournalAgent.fallback_analysis content).mood_score = 3 ∧
      (JournalAgent.fallback_analysis content).mood_label = "negative") ∧
    (JournalAgent.positive_words.countP (fun w => wordIn w content) =
        JournalAgent.negative_words.countP (fun w => wordIn w content) →
      (JournalAgent.fallback_analysis content).mood_score = 5 ∧
      (JournalAgent.fallback_analysis content).mood_label = "neutral") := by
  have hp : JournalAgent.positive_words.countP (fun w => wordIn w content) =
      JournalAgent.positiveCount content := List.countP_eq_length_filter _ _
  have hn : JournalAgent.negative_words.countP (fun w => wordIn w content) =
      JournalAgent.negativeCount content := List.countP_eq_length_filter _ _
  rw [hp, hn]
  refine ⟨fun h => ?_, fun h => ?_, fun h => ?_⟩
  · simp [JournalAgent.fallback_analysis, h]
  · have h1 : ¬ (JournalAgent.positiveCount content > JournalAgent.negativeCount content) := by
      omega
    simp [JournalAgent.fallback_analysis, h, h1]
  · have h1 : ¬ (JournalAgent.positiveCount content > JournalAgent.negativeCount content) := by
      omega
    have h2 : ¬ (JournalAgent.negativeCount content > JournalAgent.positiveCount content) := by
      omega
    simp [JournalAgent.fallback_analysis, h1, h2]

/-- C3 witness: the tied content "okay day" (no keyword of either list
occurs) classified neutral with score 5. -/
theorem c3_fallback_mood_classification_witness :
    JournalAgent.positive_words.countP (fun w => wordIn w "okay day") =
      JournalAgent.negative_words.countP (fun w => wordIn w "okay day") ∧
    (JournalAgent.fallback_analysis "okay day").mood_score = 5 ∧
    (JournalAgent.fallback_analysis "okay day").mood_label = "neutral" :=
  ⟨by decide, (c3_fallback_mood_classification "okay day").2.2 (by decide)⟩

/-- C4: fallback mood classification is monotonic under positive-word
addition: appending any words from the fixed positive list (space-separated,
removing nothing) never decreases the fallback mood score. -/
theorem c4_positive_words_monotone (c : String) (ps : List String)
    (h : ∀ p ∈ ps, p ∈ JournalAgent.positive_words) :
    (JournalAgent.fallback_analysis c).mood_score ≤
      (JournalAgent.fallback_analysis (JournalAgent.appendWords c ps)).mood_score := by
  induction ps generalizing c with
  | nil => exact le_refl _
  | cons p ps' ih =>
    have step := fallback_mood_score_step c p (h p (List.mem_cons_self p ps'))
    have rest := ih (JournalAgent.appendWord c p)
      (fun q hq => h q (List.mem_cons_of_mem p hq))
    exact le_trans step rest

/-- C4 witness: appending "happy" and "content" to "sad day" raises the
fallback mood score from 3 to 7. -/
theorem c4_positive_words_monotone_witness :
    (∀ p ∈ ["happy", "content"], p ∈ JournalAgent.positive_words) ∧
    (JournalAgent.fallback_analysis "sad day").mood_score ≤
      (JournalAgent.fallback_analysis
        (JournalAgent.appendWords "sad day" ["happy", "content"])).mood_score :=
  ⟨by decide, c4_positive_words_monotone "sad day" ["happy", "content"] (by decide)⟩

/-- C5: the spec states that the weekly summary's `average_mood` is the
arithmetic mean and that `mood_trend` compares the chronologically first and
last scores ("improving" when the chronologically last exceeds the first).
The agent indeed reports "improving" when the last *supplied* score exceeds
the first, but the route handler supplies the window `ORDER BY created_at
DESC`.  Evaluated at a chronological window with scores 2 then 8 — an
improving week — the route reports the correct mean 5 but the trend
"declining", while the agent applied to the same window in chronological
order reports "improving". -/
theorem c5_weekly_summary_trend_at_failing_input :
    (JournalAPI.get_weekly_summary
        [⟨2, "negative", [], [], "2025-01-01"⟩, ⟨8, "positive", [], [], "2025-01-02"⟩]).map
        (fun s => (s.average_mood, s.mood_trend)) = some ((5 : Rat), "declining") ∧
    (JournalAgent.generate_weekly_summary
        [⟨2, "negative", [], [], "2025-01-01"⟩, ⟨8, "positive", [], [], "2025-01-02"⟩]).map
        (fun s => (s.average_mood, s.mood_trend)) = some ((5 : Rat), "improving") := by
  constructor
  · with_unfolding_all rfl
  · with_unfolding_all rfl

/-- C6: every theme/trigger frequency table returned by the journal weekly
summary, pattern detection (both paths) and the recurring-themes route is
sorted descending by count, stays within its cap (5 for the agent tables,
10 for the route), and lists equal-count entries consistently with
first-seen order (its count-`k` elements are an initial segment of the
first-seen count table's count-`k` elements); topic suggestions are capped
at 3. -/
theorem c6_frequency_tables :
    (∀ (entries : List JournalAgent.JEntryData) (s : JournalAgent.WeeklySummary),
      JournalAgent.generate_weekly_summary entries = some s →
      TableOK ((entries.map (·.themes)).flatten) 5 s.most_common_themes ∧
      TableOK ((entries.map (·.emotional_triggers)).flatten) 5 s.most_common_triggers) ∧
    (∀ (use_llm : Bool) (o : InsightsAgent.PatternOracle)
       (jes : List InsightsAgent.PatternEntry) (mes : List InsightsAgent.MoodEntryData)
       (r : InsightsAgent.PatternsRec),
      InsightsAgent.detect_patterns use_llm o jes mes = some r →
      TableOK ((jes.map (·.themes)).flatten) 5 r.recurring_themes ∧
      TableOK ((jes.map (·.emotional_triggers)).flatten) 5 r.emotional_triggers) ∧
    (∀ entryThemes : List (List String),
      TableOK entryThemes.flatten 10
        (JournalAPI.get_recurring_themes entryThemes).recurring_themes) ∧
    (∀ hist : List ConversationAgent.HistEntry,
      (ConversationAgent.suggest_conversation_topics hist).length ≤ 3) := by
  refine ⟨?_, ?_, ?_, ?_⟩
  · intro entries s h
    cases entries with
    | nil => exact absurd h (by simp [JournalAgent.generate_weekly_summary])
    | cons e es =>
      simp only [JournalAgent.generate_weekly_summary, Option.some.injEq] at h
      subst h
      exact ⟨tableOK_sortTake _ _, tableOK_sortTake _ _⟩
  · intro u o jes mes r h
    cases jes with
    | nil => exact absurd h (by simp [InsightsAgent.detect_patterns])
    | cons a l =>
      cases u with
      | false =>
        simp only [InsightsAgent.detect_patterns, InsightsAgent.fallback_pattern_analysis,
          Option.some.injEq, Bool.false_eq_true, if_false] at h
        subst h
        exact ⟨tableOK_sortTake _ _, tableOK_nil _ _⟩
      | true =>
        simp only [InsightsAgent.detect_patterns] at h
        cases ho : o ((a :: l).take 10) (mes.take 10) with
        | ok rep =>
          rw [ho] at h
          simp only [Option.some.injEq, if_true] at h
          subst h
          exact ⟨tableOK_sortTake _ _, tableOK_sortTake _ _⟩
        | error err =>
          rw [ho] at h
          simp only [InsightsAgent.fallback_pattern_analysis, Option.some.injEq,
            if_true] at h
          subst h
          exact ⟨tableOK_sortTake _ _, tableOK_nil _ _⟩
  · intro entryThemes
    exact tableOK_sortTake _ _
  · intro hist
    by_cases he : hist.isEmpty
    · simp [ConversationAgent.suggest_conversation_topics, he]
    · simp only [ConversationAgent.suggest_conversation_topics, he, Bool.false_eq_true,
        if_false, List.length_take]
      omega

/-- C6 witness: a one-entry window instantiating the weekly-summary table
obligation (the hypothesis is discharged by evaluation). -/
theorem c6_frequency_tables_witness :
    JournalAgent.generate_weekly_summary [⟨5, "neutral", ["work"], ["x"], "d"⟩] =
      some
        { average_mood := 5
          mood_trend := "stable"
          total_entries := 1
          most_common_themes := [("work", 1)]
          most_common_triggers := [("x", 1)]
          mood_range_min := 5
          mood_range_max := 5
          most_discussed_theme := "work" } ∧
    TableOK ["work"] 5 [("work", 1)] := by
  have heq : JournalAgent.generate_weekly_summary [⟨5, "neutral", ["work"], ["x"], "d"⟩] =
      some
        { average_mood := 5
          mood_trend := "stable"
          total_entries := 1
          most_common_themes := [("work", 1)]
          most_common_triggers := [("x", 1)]
          mood_range_min := 5
          mood_range_max := 5
          most_discussed_theme := "work" } := by
    with_unfolding_all rfl
  refine ⟨heq, ?_⟩
  have h := (c6_frequency_tables.1 [⟨5, "neutral", ["work"], ["x"], "d"⟩] _ heq).1
  simpa using h

/-- C7 (counterexample): for mood entries with scores [4, 6, 8] the claim
promises trend "improving" and best/worst day indices whether or not the
model path is exercised; but when the model path is not exercised
(`use_llm = false`) `generate_mood_insights` returns
`_fallback_mood_insights`, whose trend is hard-coded "stable" and whose
result dict has no best_day/worst_day keys at all. -/
theorem c7_counterexample :
    (InsightsAgent.generate_mood_insights false (fun _ _ => Except.error "")
        [⟨"2025-01-01", 4, "neutral", 5, 5⟩, ⟨"2025-01-02", 6, "neutral", 5, 5⟩,
         ⟨"2025-01-03", 8, "neutral", 5, 5⟩] "week").map
        (fun r => (r.mood_trend, r.best_day, r.worst_day)) =
      some ("stable", none, none) := by
  decide

/-- C7 (amended): for mood entries with scores [4, 6, 8] in chronological
order, `generate_mood_insights` returns average_mood 6.0 on every path; on
the model path it returns trend "improving" with best_day the date at index
2 and worst_day the date at index 0, while on the fallback path (model
unavailable or model call failed) it returns trend "stable" and omits
best/worst day. -/
theorem c7_mood_insights_scenario (r : InsightsAgent.TrendReply) (e : String) :
    InsightsAgent.generate_mood_insights true (fun _ _ => Except.ok r)
        [⟨"2025-01-01", 4, "neutral", 5, 5⟩, ⟨"2025-01-02", 6, "neutral", 5, 5⟩,
         ⟨"2025-01-03", 8, "neutral", 5, 5⟩] "week" =
      some
        { average_mood := 6
          mood_trend := "improving"
          mood_volatility := "medium"
          best_day := some "2025-01-03"
          worst_day := some "2025-01-01"
          mood_range := some (4, 8)
          total_entries := 3
          insights := r.insights.getD []
          key_changes := r.key_changes.getD [] } ∧
    InsightsAgent.generate_mood_insights true (fun _ _ => Except.error e)
        [⟨"2025-01-01", 4, "neutral", 5, 5⟩, ⟨"2025-01-02", 6, "neutral", 5, 5⟩,
         ⟨"2025-01-03", 8, "neutral", 5, 5⟩] "week" =
      some
        { average_mood := 6
          mood_trend := "stable"
          mood_volatility := "medium"
          best_day := none
          worst_day := none
          mood_range := none
          total_entries := 3
          insights := ["Basic mood analysis completed"]
          key_changes := [] } ∧
    InsightsAgent.generate_mood_insights false (fun _ _ => Except.error e)
        [⟨"2025-01-01", 4, "neutral", 5, 5⟩, ⟨"2025-01-02", 6, "neutral", 5, 5⟩,
         ⟨"2025-01-03", 8, "neutral", 5, 5⟩] "week" =
      some
        { average_mood := 6
          mood_trend := "stable"
          mood_volatility := "medium"
          best_day := none
          worst_day := none
          mood_range := none
          total_entries := 3
          insights := ["Basic mood analysis completed"]
          key_changes := [] } := by
  refine ⟨?_, ?_, ?_⟩
  · with_unfolding_all rfl
  · with_unfolding_all rfl
  · with_unfolding_all rfl

/-- C9 (counterexample): a plan with themes [A, B] and recent activity
containing conversations for *both* theme names leaves no themes at all —
not [B] as the claim, quantified over every such activity list, states. -/
theorem c9_counterexample :
    (PlannerAgent.adjust_plan_based_on_progress
        ⟨[⟨"a", 1, "general", [], ""⟩, ⟨"b", 1, "general", [], ""⟩], none, []⟩
        [⟨"conversation", some "a", []⟩, ⟨"conversation", some "b", []⟩] "t").themes = [] ∧
    (PlannerAgent.adjust_plan_based_on_progress
        ⟨[⟨"a", 1, "general", [], ""⟩, ⟨"b", 1, "general", [], ""⟩], none, []⟩
        [⟨"conversation", some "a", []⟩, ⟨"conversation", some "b", []⟩] "t").themes ≠
      [⟨"b", 1, "general", [], ""⟩] := by
  decide

/-- C9 (amended): for a plan with themes [A, B], if the recent activity
contains a conversation completing A's theme name and none completing B's,
the adjusted plan's themes are [B], plus exactly one appended
"recent insights" theme iff some journal activity carried a nonempty
insights list; `adjusted_at` is stamped and every other plan field passes
through unchanged (and no model oracle is involved: the function takes
none). -/
theorem c9_adjust_plan_amended (A B : PlannerAgent.PlanTheme) (adjAt : Option String)
    (others : List (String × String)) (acts : List PlannerAgent.Activity) (now : String)
    (hA : A.theme ∈ PlannerAgent.completed_themes_of acts)
    (hB : B.theme ∉ PlannerAgent.completed_themes_of acts) :
    PlannerAgent.adjust_plan_based_on_progress ⟨[A, B], adjAt, others⟩ acts now =
      { themes := [B] ++ (if (PlannerAgent.new_insights_of acts).isEmpty then []
            else [PlannerAgent.recent_insights_theme])
        adjusted_at := some now
        others := others } := by
  have hA' : (PlannerAgent.completed_themes_of acts).contains A.theme = true :=
    List.elem_eq_true_of_mem hA
  have hB' : (PlannerAgent.completed_themes_of acts).contains B.theme = false := by
    rw [Bool.eq_false_iff]
    intro hc
    exact hB (List.mem_of_elem_eq_true hc)
  simp only [PlannerAgent.adjust_plan_based_on_progress, List.filter_cons, hA', hB',
    Bool.not_true, Bool.not_false, List.filter_nil]
  by_cases hi : (PlannerAgent.new_insights_of acts).isEmpty <;> simp [hi]

/-- C9 witness: the concrete scenario with one conversation activity for A's
theme, no journal activity, and a plan [A, B]. -/
theorem c9_adjust_plan_amended_witness :
    "a" ∈ PlannerAgent.completed_themes_of [⟨"conversation", some "a", []⟩] ∧
    "b" ∉ PlannerAgent.completed_themes_of [⟨"conversation", some "a", []⟩] ∧
    PlannerAgent.adjust_plan_based_on_progress
        ⟨[⟨"a", 1, "general", [], ""⟩, ⟨"b", 1, "general", [], ""⟩], none, []⟩
        [⟨"conversation", some "a", []⟩] "t" =
      { themes := [⟨"b", 1, "general", [], ""⟩], adjusted_at := some "t", others := [] } := by
  refine ⟨by decide, by decide, ?_⟩
  have h := c9_adjust_plan_amended ⟨"a", 1, "general", [], ""⟩ ⟨"b", 1, "general", [], ""⟩
    none [] [⟨"conversation", some "a", []⟩] "t" (by decide) (by decide)
  simpa using h

/-- C10 (counterexample): when the model call fails on a previously unseen
session id, the fallback reply path does *not* leave the transcript map
unchanged: `_get_conversation_memory` has already inserted an empty
transcript before the model call raised. -/
theorem c10_counterexample :
    (ConversationAgent.generate_response true (fun _ _ _ _ _ => Except.error "boom")
        "hello" "s1" "general" none []).2 = [("s1", [])] ∧
    (ConversationAgent.generate_response true (fun _ _ _ _ _ => Except.error "boom")
        "hello" "s1" "general" none []).2 ≠ ([] : ConversationAgent.MemoryMap) := by
  exact ⟨rfl, by decide⟩

/-- C10 (amended): on the fallback reply path `generate_response` never
appends the turn to any transcript.  With the model unavailable
(`use_llm = false`) the map is returned exactly unchanged; when the model
call fails, the map is the one produced by the lazy
`_get_conversation_memory` lookup: every previously stored transcript is
unchanged, and the only possible change is a new *empty* transcript for a
previously unseen session id. -/
theorem c10_fallback_path_transcripts (chat : ConversationAgent.ChatOracle)
    (msg sid ctype : String) (theme : Option String)
    (m : ConversationAgent.MemoryMap) (e : String) :
    (ConversationAgent.generate_response false chat msg sid ctype theme m).1 =
      ConversationAgent.fallback_response msg ctype theme sid ∧
    (ConversationAgent.generate_response false chat msg sid ctype theme m).2 = m ∧
    (chat ctype msg theme sid (ConversationAgent.get_conversation_memory sid m).1 =
        Except.error e →
      (ConversationAgent.generate_response true chat msg sid ctype theme m).1 =
        ConversationAgent.fallback_response msg ctype theme sid ∧
      (ConversationAgent.generate_response true chat msg sid ctype theme m).2 =
        (ConversationAgent.get_conversation_memory sid m).2 ∧
      ∀ sid', ConversationAgent.lookupMem
          (ConversationAgent.generate_response true chat msg sid ctype theme m).2 sid' =
          ConversationAgent.lookupMem m sid' ∨
        (sid' = sid ∧ ConversationAgent.lookupMem m sid = none ∧
          ConversationAgent.lookupMem
            (ConversationAgent.generate_response true chat msg sid ctype theme m).2 sid' =
            some [])) := by
  refine ⟨rfl, rfl, fun h => ?_⟩
  have h2 : (ConversationAgent.generate_response true chat msg sid ctype theme m).2 =
      (ConversationAgent.get_conversation_memory sid m).2 := by
    simp only [ConversationAgent.generate_response, if_pos]
    rw [h]
  refine ⟨?_, h2, ?_⟩
  · simp only [ConversationAgent.generate_response, if_pos]
    rw [h]
  · intro sid'
    rw [h2]
    unfold ConversationAgent.get_conversation_memory
    cases hm : ConversationAgent.lookupMem m sid with
    | some t => left; rfl
    | none =>
      by_cases hsid : sid' = sid
      · right
        refine ⟨hsid, rfl, ?_⟩
        rw [hsid, lookupMem_append, hm]
        simp [ConversationAgent.lookupMem, List.find?]
      · left
        rw [lookupMem_append]
        cases hm' : ConversationAgent.lookupMem m sid' with
        | some t => rfl
        | none =>
          have hne : (sid == sid') = false := by
            simp only [beq_eq_false_iff_ne, ne_eq]
            exact fun hc => hsid hc.symm
          simp [ConversationAgent.lookupMem, List.find?, hne]

/-- C8 (counterexample): `analyze_habit_correlations` does *not* recover from
a model failure with its heuristic fallback: the `except` handler returns an
error dict carrying the exception text, different from the heuristic result
the non-LLM path produces on the same input. -/
theorem c8_counterexample :
    InsightsAgent.analyze_habit_correlations true (fun _ => 0)
        (fun _ _ => Except.error "boom")
        [⟨"2025-01-01", 4, "neutral", 5, 5⟩, ⟨"2025-01-02", 6, "neutral", 5, 5⟩]
        [⟨"run", 1, "km", "2025-01-01"⟩] =
      InsightsAgent.HCResult.failure "boom" ∧
    InsightsAgent.analyze_habit_correlations false (fun _ => 0)
        (fun _ _ => Except.error "boom")
        [⟨"2025-01-01", 4, "neutral", 5, 5⟩, ⟨"2025-01-02", 6, "neutral", 5, 5⟩]
        [⟨"run", 1, "km", "2025-01-01"⟩] =
      InsightsAgent.HCResult.ok [] [] []
        ["Basic habit correlation analysis completed"]
        ["Continue tracking habits and mood to build patterns"] ∧
    InsightsAgent.HCResult.failure "boom" ≠
      InsightsAgent.HCResult.ok [] [] []
        ["Basic habit correlation analysis completed"]
        ["Continue tracking habits and mood to build patterns"] := by
  refine ⟨rfl, rfl, by decide⟩

/-- C8 (amended): every listed agent operation except habit correlations
recovers from an external-model failure by returning its heuristic fallback
result — journal analysis, mood insights, pattern detection, the insights
weekly summary, the conversation reply and weekly-plan creation (the
journal-side weekly summary makes no model call at all);
`analyze_habit_correlations` instead surfaces the failure as an error dict
carrying the exception text. -/
theorem c8_model_failure_recovery :
    (∀ (o : JournalAgent.JournalOracle) (content e : String),
      JournalAgent.analyze_journal_entry_llm o content = Except.error e →
      JournalAgent.analyze_journal_entry true o content =
        JournalAgent.fallback_analysis content) ∧
    (∀ (o : InsightsAgent.TrendOracle) (entries : List InsightsAgent.MoodEntryData)
       (tp e : String),
      o entries tp = Except.error e →
      InsightsAgent.generate_mood_insights true o entries tp =
        InsightsAgent.fallback_mood_insights entries) ∧
    (∀ (o : InsightsAgent.PatternOracle) (jes : List InsightsAgent.PatternEntry)
       (mes : List InsightsAgent.MoodEntryData) (e : String),
      o (jes.take 10) (mes.take 10) = Except.error e →
      InsightsAgent.detect_patterns true o jes mes =
        InsightsAgent.fallback_pattern_analysis jes) ∧
    (∀ (α β γ : Type) (o : InsightsAgent.SummGenOracle α β γ) (mi : α) (hc : β)
       (pa : γ) (e : String),
      o mi hc pa = Except.error e →
      InsightsAgent.generate_weekly_summary true o mi hc pa =
        { week_summary := InsightsAgent.fallback_weekly_summary_content
          mood_insights := mi
          habit_correlations := hc
          pattern_analysis := pa }) ∧
    (∀ (chat : ConversationAgent.ChatOracle) (msg sid ctype : String)
       (theme : Option String) (m : ConversationAgent.MemoryMap) (e : String),
      chat ctype msg theme sid (ConversationAgent.get_conversation_memory sid m).1 =
        Except.error e →
      (ConversationAgent.generate_response true chat msg sid ctype theme m).1 =
        ConversationAgent.fallback_response msg ctype theme sid) ∧
    (∀ (o : PlannerAgent.PlannerOracle) (uid : Int) (jts : List (List String))
       (md : List Rat) (cc : Nat) (e₁ e₂ : String),
      o.selectThemes (PlannerAgent.analyze_patterns jts md cc) = Except.error e₁ →
      o.genPlan (PlannerAgent.analyze_patterns jts md cc)
          PlannerAgent.fallback_theme_selection = Except.error e₂ →
      PlannerAgent.create_weekly_plan true o uid jts md cc =
        PlannerAgent.create_weekly_plan false o uid jts md cc) := by
  refine ⟨?_, ?_, ?_, ?_, ?_, ?_⟩
  · intro o content e h
    simp [JournalAgent.analyze_journal_entry, h]
  · intro o entries tp e h
    cases entries with
    | nil => rfl
    | cons a l => simp [InsightsAgent.generate_mood_insights, h]
  · intro o jes mes e h
    cases jes with
    | nil => rfl
    | cons a l =>
      simp only [InsightsAgent.detect_patterns]
      rw [h]
      simp
  · intro α β γ o mi hc pa e h
    simp [InsightsAgent.generate_weekly_summary, h]
  · intro chat msg sid ctype theme m e h
    simp [ConversationAgent.generate_response, h]
  · intro o uid jts md cc e₁ e₂ h₁ h₂
    simp [PlannerAgent.create_weekly_plan, h₁, h₂]

/-- C8 witness: concrete failing-model runs discharging each hypothesis of
the amended recovery theorem. -/
theorem c8_model_failure_recovery_witness :
    JournalAgent.analyze_journal_entry true
        ⟨fun _ => Except.error "x", fun _ => Except.error "x",
         fun _ => Except.error "x", fun _ _ _ _ => Except.error "x"⟩ "bad day" =
      JournalAgent.fallback_analysis "bad day" ∧
    InsightsAgent.generate_mood_insights true (fun _ _ => Except.error "x")
        [⟨"2025-01-01", 4, "neutral", 5, 5⟩] "week" =
      InsightsAgent.fallback_mood_insights [⟨"2025-01-01", 4, "neutral", 5, 5⟩] ∧
    InsightsAgent.detect_patterns true (fun _ _ => Except.error "x")
        [⟨["work"], []⟩] [] =
      InsightsAgent.fallback_pattern_analysis [⟨["work"], []⟩] ∧
    InsightsAgent.generate_weekly_summary true (fun _ _ _ => Except.error "x")
        (1 : Nat) (2 : Nat) (3 : Nat) =
      { week_summary := InsightsAgent.fallback_weekly_summary_content
        mood_insights := 1
        habit_correlations := 2
        pattern_analysis := 3 } ∧
    (ConversationAgent.generate_response true (fun _ _ _ _ _ => Except.error "x")
        "hi" "s" "general" none []).1 =
      ConversationAgent.fallback_response "hi" "general" none "s" ∧
    PlannerAgent.create_weekly_plan true ⟨fun _ => Except.error "a", fun _ _ => Except.error "b"⟩
        1 [] [] 0 =
      PlannerAgent.create_weekly_plan false ⟨fun _ => Except.error "a", fun _ _ => Except.error "b"⟩
        1 [] [] 0 := by
  have h := c8_model_failure_recovery
  exact ⟨h.1 _ "bad day" "x" rfl, h.2.1 _ _ "week" "x" rfl, h.2.2.1 _ _ [] "x" rfl,
    h.2.2.2.1 Nat Nat Nat _ 1 2 3 "x" rfl, h.2.2.2.2.1 _ "hi" "s" "general" none [] "x" rfl,
    h.2.2.2.2.2 _ 1 [] [] 0 "a" "b" rfl rfl⟩

/-- C10 witness: a concrete run on the model-call-failure path (unseen
session id, empty map) discharging the amended theorem's hypothesis. -/
theorem c10_fallback_path_transcripts_witness :
    ConversationAgent.lookupMem
        (ConversationAgent.generate_response true (fun _ _ _ _ _ => Except.error "x")
          "hi" "s" "general" none []).2 "s" = some [] := by
  have h := c10_fallback_path_transcripts (fun _ _ _ _ _ => Except.error "x")
    "hi" "s" "general" none [] "x"
  rw [(h.2.2 rfl).2.1]
  rfl

end Mindmate
